import Mathlib

/-!
Shallow embedding of `cartpole_double_env_cfg.py` (Isaac Lab, manager-based
double cart-pole task configuration).  The module is purely declarative: it
builds nested configuration records and a post-construction hook that
overwrites a few scalar fields.  Python float literals are embedded as exact
rationals; `math.pi` is embedded as the exact rational value of the IEEE-754
double that Python's `math.pi` denotes.
-/

namespace CartpoleDouble

/-- Exact rational value of the IEEE-754 double `math.pi` that the Python
source uses for the degenerate reset range of the `CartToPole` joint. -/
def math_pi : ℚ := 884279719003555 / 281474976710656

/-- Embedding of `SceneEntityCfg(name, joint_names=...)`: a reference to a
scene entity, optionally restricted to a list of joint names.  `none` means
no restriction (the framework default), i.e. all joints of the entity. -/
structure SceneEntityCfg where
  name : String
  joint_names : Option (List String) := none
deriving Repr, DecidableEq

/-- A parameter value appearing in a term's `params` dictionary. -/
inductive PValue where
  | entity (e : SceneEntityCfg)
  | num (q : ℚ)
  | range (p : ℚ × ℚ)
deriving Repr, DecidableEq

/-- A `params` dictionary: an association list of keyword to value, in the
order the keywords are written in the source. -/
abbrev Params := List (String × PValue)

/-- Embedding of `JointEffortActionCfg`. -/
structure JointEffortActionCfg where
  asset_name : String
  joint_names : List String
  scale : ℚ
deriving Repr, DecidableEq

/-- Embedding of `ActionsCfg`: action specifications for the MDP. -/
structure ActionsCfg where
  joint_effort : JointEffortActionCfg
deriving Repr, DecidableEq

/-- Default construction of `ActionsCfg`, exactly as declared in the source. -/
def ActionsCfg.make : ActionsCfg :=
  { joint_effort := { asset_name := "robot", joint_names := ["RailToCart"], scale := 10.0 } }

/-- The action terms declared by `ActionsCfg`, in declaration order. -/
def ActionsCfg.terms (c : ActionsCfg) : List (String × JointEffortActionCfg) :=
  [("joint_effort", c.joint_effort)]

/-- Embedding of `ObservationTermCfg` (`ObsTerm`): the source keeps only the
`func` keyword for both terms, recorded here by the function's name. -/
structure ObsTerm where
  func : String
deriving Repr, DecidableEq

/-- Embedding of the nested group `ObservationsCfg.PolicyCfg`
(an `ObservationGroupCfg`): two observation terms plus the two group flags
set by its `__post_init__`. -/
structure PolicyCfg where
  joint_pos_rel : ObsTerm
  joint_vel_rel : ObsTerm
  enable_corruption : Bool
  concatenate_terms : Bool
deriving Repr, DecidableEq

/-- The `__post_init__` hook of `PolicyCfg`: disables corruption and enables
term concatenation, overwriting whatever the base class installed. -/
def PolicyCfg.post_init (c : PolicyCfg) : PolicyCfg :=
  { c with enable_corruption := false, concatenate_terms := true }

/-- Construction of `PolicyCfg`: the two declared terms in declaration order,
the two group flags starting at the (framework-supplied, hence unknown)
base-class values `g0`, then the `__post_init__` hook. -/
def PolicyCfg.make (g0 : Bool × Bool) : PolicyCfg :=
  PolicyCfg.post_init
    { joint_pos_rel := { func := "joint_pos_rel" }
      joint_vel_rel := { func := "joint_vel_rel" }
      enable_corruption := g0.1
      concatenate_terms := g0.2 }

/-- The observation terms of the policy group, in declaration order. -/
def PolicyCfg.terms (c : PolicyCfg) : List (String × ObsTerm) :=
  [("joint_pos_rel", c.joint_pos_rel), ("joint_vel_rel", c.joint_vel_rel)]

/-- Embedding of `ObservationsCfg`: a single observation group. -/
structure ObservationsCfg where
  policy : PolicyCfg
deriving Repr, DecidableEq

/-- Construction of `ObservationsCfg` (its only field default-constructs the
policy group). -/
def ObservationsCfg.make (g0 : Bool × Bool) : ObservationsCfg :=
  { policy := PolicyCfg.make g0 }

/-- The observation groups declared by `ObservationsCfg`, in declaration
order. -/
def ObservationsCfg.groups (c : ObservationsCfg) : List (String × PolicyCfg) :=
  [("policy", c.policy)]

/-- Embedding of `EventTermCfg` (`EventTerm`). -/
structure EventTerm where
  func : String
  mode : String
  params : Params
deriving Repr, DecidableEq

/-- Embedding of `EventCfg`: the three event terms declared in the source
(the commented-out `reset_cart_position` block is a string literal in the
source, hence dead and not a field). -/
structure EventCfg where
  reset_to_default : EventTerm
  reset_pole_position : EventTerm
  reset_pole_double_position : EventTerm
deriving Repr, DecidableEq

/-- Default construction of `EventCfg`, exactly as declared in the source. -/
def EventCfg.make : EventCfg :=
  { reset_to_default :=
      { func := "reset_joints_to_default"
        mode := "reset"
        params := [("asset_cfg", .entity { name := "robot" })] }
    reset_pole_position :=
      { func := "reset_joints_by_offset"
        mode := "reset"
        params :=
          [("asset_cfg", .entity { name := "robot", joint_names := some ["CartToPole"] }),
           ("position_range", .range (math_pi, math_pi)),
           ("velocity_range", .range (0.0, 0.0))] }
    reset_pole_double_position :=
      { func := "reset_joints_by_offset"
        mode := "reset"
        params :=
          [("asset_cfg", .entity { name := "robot", joint_names := some ["PoleToDouble"] }),
           ("position_range", .range (0.0, 0.0)),
           ("velocity_range", .range (0.0, 0.0))] } }

/-- The event terms declared by `EventCfg`, in declaration order. -/
def EventCfg.terms (c : EventCfg) : List (String × EventTerm) :=
  [("reset_to_default", c.reset_to_default),
   ("reset_pole_position", c.reset_pole_position),
   ("reset_pole_double_position", c.reset_pole_double_position)]

/-- Whether a parameter value, if it is a range, is degenerate (zero-width):
`low = high`.  Non-range values satisfy this vacuously. -/
def PValue.isDegenerateRange : PValue → Bool
  | .range p => decide (p.1 = p.2)
  | _ => true

/-- Embedding of `RewardTermCfg` (`RewTerm`). -/
structure RewTerm where
  func : String
  weight : ℚ
  params : Params := []
deriving Repr, DecidableEq

/-- Embedding of `RewardsCfg`: the seven reward terms declared in the
source, as fields in declaration order. -/
structure RewardsCfg where
  alive : RewTerm
  terminating : RewTerm
  pole_pos : RewTerm
  pole_pos_double : RewTerm
  cart_vel : RewTerm
  pole_vel : RewTerm
  cart_pos : RewTerm
deriving Repr, DecidableEq

/-- Default construction of `RewardsCfg`, exactly as declared in the source. -/
def RewardsCfg.make : RewardsCfg :=
  { alive := { func := "is_alive", weight := 250.0 }
    terminating := { func := "is_terminated", weight := -800.0 }
    pole_pos :=
      { func := "joint_pos_target_l2"
        weight := -30.0
        params := [("asset_cfg", .entity { name := "robot", joint_names := some ["CartToPole"] }),
                   ("target", .num 0.0)] }
    pole_pos_double :=
      { func := "joint_pos_target_l2"
        weight := -30.0
        params := [("asset_cfg", .entity { name := "robot", joint_names := some ["PoleToDouble"] }),
                   ("target", .num 0.0)] }
    cart_vel :=
      { func := "joint_vel_l1"
        weight := -10.0
        params := [("asset_cfg", .entity { name := "robot", joint_names := some ["RailToCart"] })] }
    pole_vel :=
      { func := "joint_vel_l1"
        weight := -10.0
        params := [("asset_cfg", .entity { name := "robot", joint_names := some ["CartToPole"] })] }
    cart_pos :=
      { func := "joint_pos_target_l2"
        weight := -5.0
        params := [("asset_cfg", .entity { name := "robot", joint_names := some ["RailToCart"] }),
                   ("target", .num 0.0)] } }

/-- The reward terms declared by `RewardsCfg`, in declaration order. -/
def RewardsCfg.terms (c : RewardsCfg) : List (String × RewTerm) :=
  [("alive", c.alive), ("terminating", c.terminating), ("pole_pos", c.pole_pos),
   ("pole_pos_double", c.pole_pos_double), ("cart_vel", c.cart_vel),
   ("pole_vel", c.pole_vel), ("cart_pos", c.cart_pos)]

/-- Modelled from the spec: the reward manager of the host framework (absent
from the sources; only this configuration file is present) evaluates every
declared reward term each step and returns the weighted sum
`reward = Σ (weight × term value)`; `value` gives each term's evaluated
(unweighted) value, keyed by term name. -/
def RewardsCfg.totalReward (c : RewardsCfg) (value : String → ℚ) : ℚ :=
  (c.terms.map fun t => t.2.weight * value t.1).sum

/-- Embedding of `TerminationTermCfg` (`DoneTerm`).  The default
`time_out := false` is modelled from the spec: the framework class that
supplies it is absent from the sources, and the spec describes only the
explicit `time_out=True` term as the time-based, non-failure termination. -/
structure DoneTerm where
  func : String
  time_out : Bool := false
  params : Params := []
deriving Repr, DecidableEq

/-- Embedding of `TerminationsCfg`: the two termination terms. -/
structure TerminationsCfg where
  time_out : DoneTerm
  cart_out_of_bounds : DoneTerm
deriving Repr, DecidableEq

/-- Default construction of `TerminationsCfg`, exactly as declared in the
source. -/
def TerminationsCfg.make : TerminationsCfg :=
  { time_out := { func := "time_out", time_out := true }
    cart_out_of_bounds :=
      { func := "joint_pos_out_of_manual_limit"
        params := [("asset_cfg", .entity { name := "robot", joint_names := some ["RailToCart"] }),
                   ("bounds", .range (-1.24, 1.24))] } }

/-- The termination terms declared by `TerminationsCfg`, in declaration
order. -/
def TerminationsCfg.terms (c : TerminationsCfg) : List (String × DoneTerm) :=
  [("time_out", c.time_out), ("cart_out_of_bounds", c.cart_out_of_bounds)]

/-- Embedding of `NullCommandCfg`: the null command generator (no data). -/
structure NullCommandCfg : Type
deriving Repr, DecidableEq

/-- Embedding of `CommandsCfg`: only the null command term. -/
structure CommandsCfg where
  null : NullCommandCfg
deriving Repr, DecidableEq

/-- Embedding of `CurriculumCfg`: intentionally empty in the source. -/
structure CurriculumCfg : Type
deriving Repr, DecidableEq

/-- Embedding of `sim_utils.DomeLightCfg`. -/
structure DomeLightCfg where
  color : ℚ × ℚ × ℚ
  intensity : ℚ
deriving Repr, DecidableEq

/-- Embedding of `sim_utils.DistantLightCfg`. -/
structure DistantLightCfg where
  color : ℚ × ℚ × ℚ
  intensity : ℚ
deriving Repr, DecidableEq

/-- Embedding of `sim_utils.PinholeCameraCfg`. -/
structure PinholeCameraCfg where
  focal_length : ℚ
  focus_distance : ℚ
  horizontal_aperture : ℚ
  clipping_range : ℚ × ℚ
deriving Repr, DecidableEq

/-- The spawn specification attached to an asset in this module: one of the
two light spawners or the pinhole-camera spawner. -/
inductive SpawnCfg where
  | dome (c : DomeLightCfg)
  | distant (c : DistantLightCfg)
  | pinhole (c : PinholeCameraCfg)
deriving Repr, DecidableEq

/-- Embedding of `AssetBaseCfg.InitialStateCfg` (only `rot` is used here). -/
structure InitialStateCfg where
  rot : ℚ × ℚ × ℚ × ℚ
deriving Repr, DecidableEq

/-- Embedding of `AssetBaseCfg`. -/
structure AssetBaseCfg where
  prim_path : String
  spawn : SpawnCfg
  init_state : Option InitialStateCfg := none
deriving Repr, DecidableEq

/-- Embedding of `ArticulationCfg` as used by this module: the only field
this configuration touches is the attachment path `prim_path`. -/
structure ArticulationCfg where
  prim_path : String
deriving Repr, DecidableEq

/-- Embedding of `ArticulationCfg.replace(prim_path=p)`: a copy of the
configuration with the attachment path overwritten. -/
def ArticulationCfg.replace (c : ArticulationCfg) (p : String) : ArticulationCfg :=
  { c with prim_path := p }

/-- Modelled from the spec: `CARTPOLE_CFG`, the base robot template imported
from `omni.isaac.lab_assets.cartpole_double`, is absent from the sources.
Only its attachment path is touched by this module, and that path is
immediately overwritten by `replace`, so a placeholder path stands in for
the unknown template value. -/
def CARTPOLE_CFG : ArticulationCfg :=
  { prim_path := "/World/CartpoleTemplate" }

/-- The literal placeholder substring that the framework substitutes with a
per-environment index (written with escaped braces). -/
def envRegexNS : String := "\x7bENV_REGEX_NS\x7d"

/-- Embedding of `CameraCfg`. -/
structure CameraCfg where
  prim_path : String
  update_period : ℚ
  height : ℕ
  width : ℕ
  data_types : List String
  colorize_semantic_segmentation : Bool
  colorize_instance_id_segmentation : Bool
  colorize_instance_segmentation : Bool
  spawn : PinholeCameraCfg
deriving Repr, DecidableEq

/-- Embedding of the `Camera` sensor object: it wraps its configuration. -/
structure Camera where
  cfg : CameraCfg
deriving Repr, DecidableEq

/-- The world prim hierarchy, as far as this module manipulates it: the list
of created prims as pairs `(path, prim type)`, in creation order. -/
abbrev PrimStage := List (String × String)

/-- Embedding of `prim_utils.create_prim(path, ptype)`: appends a new prim
to the world hierarchy. -/
def create_prim (world : PrimStage) (path ptype : String) : PrimStage :=
  world ++ [(path, ptype)]

/-- Embedding of `create_camera()`: creates the two placeholder `Xform`
prims, then builds the camera configuration and returns the camera.  The
world hierarchy is passed explicitly to model the stateful `create_prim`
calls. -/
def create_camera (world : PrimStage) : PrimStage × Camera :=
  let world := create_prim world "/World/Origin_00" "Xform"
  let world := create_prim world "/World/Origin_01" "Xform"
  let camera_cfg : CameraCfg :=
    { prim_path := "/World/Origin_.*/CameraSensor"
      update_period := 0
      height := 480
      width := 640
      data_types := ["rgb"]
      colorize_semantic_segmentation := false
      colorize_instance_id_segmentation := false
      colorize_instance_segmentation := false
      spawn :=
        { focal_length := 24.0, focus_distance := 400.0, horizontal_aperture := 20.955,
          clipping_range := (0.1, 1.0e5) } }
  (world, { cfg := camera_cfg })

/-- Embedding of `CartpoleDoubleSceneCfg`: the `InteractiveSceneCfg` base
parameters (`num_envs`, `env_spacing`) plus the three declared entity
fields.  The camera block in the class body is a string literal in the
source (dead code), hence not a field. -/
structure CartpoleDoubleSceneCfg where
  num_envs : ℕ
  env_spacing : ℚ
  robot : ArticulationCfg
  dome_light : AssetBaseCfg
  distant_light : AssetBaseCfg
deriving Repr, DecidableEq

/-- Construction of `CartpoleDoubleSceneCfg(num_envs, env_spacing)` with the
field defaults declared in the source. -/
def CartpoleDoubleSceneCfg.make (base_robot : ArticulationCfg) (num_envs : ℕ)
    (env_spacing : ℚ) : CartpoleDoubleSceneCfg :=
  { num_envs := num_envs
    env_spacing := env_spacing
    robot := base_robot.replace (envRegexNS ++ "/Robot")
    dome_light :=
      { prim_path := "/World/DomeLight"
        spawn := .dome { color := (0.9, 0.9, 0.9), intensity := 500.0 } }
    distant_light :=
      { prim_path := "/World/DistantLight"
        spawn := .distant { color := (0.9, 0.9, 0.9), intensity := 2500.0 }
        init_state := some { rot := (0.738, 0.477, 0.477, 0.0) } } }

/-- A declared scene entity: an articulation, a plain asset (light), or a
sensor. -/
inductive SceneEntity where
  | articulation (c : ArticulationCfg)
  | asset (c : AssetBaseCfg)
  | sensor (c : CameraCfg)
deriving Repr, DecidableEq

/-- Whether a declared scene entity is a camera sensor. -/
def SceneEntity.isCamera : SceneEntity → Bool
  | .sensor _ => true
  | _ => false

/-- The entities declared by `CartpoleDoubleSceneCfg`, in declaration
order. -/
def CartpoleDoubleSceneCfg.entities (c : CartpoleDoubleSceneCfg) :
    List (String × SceneEntity) :=
  [("robot", .articulation c.robot), ("dome_light", .asset c.dome_light),
   ("distant_light", .asset c.distant_light)]

/-- Embedding of the viewer settings touched by the post-construction
hook. -/
structure ViewerCfg where
  eye : ℚ × ℚ × ℚ
  lookat : ℚ × ℚ × ℚ
deriving Repr, DecidableEq

/-- Embedding of the simulation settings touched by the post-construction
hook. -/
structure SimCfg where
  dt : ℚ
  gravity : ℚ × ℚ × ℚ
  render_interval : ℕ
  use_fabric : Bool
deriving Repr, DecidableEq

/-- Modelled from the spec: the scalar fields that the framework base class
`ManagerBasedRLEnvCfg` (absent from the sources) installs before
`__post_init__` runs, together with the base values of the observation-group
flags.  Their default values are unknown, so construction is parameterized
by them; the hook overwrites every one of them (last-write-wins). -/
structure BaseEnvDefaults where
  decimation : ℕ
  episode_length_s : ℚ
  viewer : ViewerCfg
  sim : SimCfg
  group_flags : Bool × Bool
deriving Repr, DecidableEq

/-- Embedding of `CartpoleDoubleEnvCfg`: the aggregate bundle. -/
structure CartpoleDoubleEnvCfg where
  scene : CartpoleDoubleSceneCfg
  observations : ObservationsCfg
  actions : ActionsCfg
  events : EventCfg
  curriculum : CurriculumCfg
  rewards : RewardsCfg
  terminations : TerminationsCfg
  commands : CommandsCfg
  decimation : ℕ
  episode_length_s : ℚ
  viewer : ViewerCfg
  sim : SimCfg
deriving Repr, DecidableEq

/-- Embedding of `CartpoleDoubleEnvCfg.__post_init__`: overwrites the
general, viewer and simulation settings, field by field, exactly as the
source does. -/
def CartpoleDoubleEnvCfg.post_init (c : CartpoleDoubleEnvCfg) : CartpoleDoubleEnvCfg :=
  { c with
    decimation := 1
    episode_length_s := 10
    viewer := { c.viewer with eye := (1.4, 0.0, 2.8), lookat := (-10.0, 0.0, 0.0) }
    sim := { c.sim with
      dt := 1 / 120
      gravity := (0.0, 0.0, -9.8)
      render_interval := 2
      use_fabric := true } }

/-- Full construction of the bundle: the declared field defaults (each
sub-configuration default-constructed exactly as written in the source),
the unknown framework base values `base`, then the post-construction hook.
Parameterized by the unknown base robot template `base_robot`. -/
def CartpoleDoubleEnvCfg.make (base_robot : ArticulationCfg)
    (base : BaseEnvDefaults) : CartpoleDoubleEnvCfg :=
  CartpoleDoubleEnvCfg.post_init
    { scene := CartpoleDoubleSceneCfg.make base_robot 4096 2.8
      observations := ObservationsCfg.make base.group_flags
      actions := ActionsCfg.make
      events := EventCfg.make
      curriculum := {}
      rewards := RewardsCfg.make
      terminations := TerminationsCfg.make
      commands := { null := {} }
      decimation := base.decimation
      episode_length_s := base.episode_length_s
      viewer := base.viewer
      sim := base.sim }

/-- Arbitrary concrete stand-in for the unknown framework base values, used
only to name one concrete default-constructed bundle. -/
def baseDefaults0 : BaseEnvDefaults :=
  { decimation := 0
    episode_length_s := 0
    viewer := { eye := (0, 0, 0), lookat := (0, 0, 0) }
    sim := { dt := 0, gravity := (0, 0, 0), render_interval := 0, use_fabric := false }
    group_flags := (false, false) }

/-- The default-constructed bundle (with the modelled template and base
values; every claim settled on `bundle` is independent of those, as the
quantified theorems show where relevant). -/
def bundle : CartpoleDoubleEnvCfg :=
  CartpoleDoubleEnvCfg.make CARTPOLE_CFG baseDefaults0

/-- Claim C1: in the default-constructed bundle the reward weights are
alive = +250, terminating = -800, pole_pos = -30, pole_pos_double = -30,
cart_vel = -10, pole_vel = -10, cart_pos = -5, and every declared reward
term's weight is non-zero (weights are rational numbers in the embedding,
hence finite by construction). -/
theorem C1_reward_weights :
    bundle.rewards.alive.weight = 250 ∧
    bundle.rewards.terminating.weight = -800 ∧
    bundle.rewards.pole_pos.weight = -30 ∧
    bundle.rewards.pole_pos_double.weight = -30 ∧
    bundle.rewards.cart_vel.weight = -10 ∧
    bundle.rewards.pole_vel.weight = -10 ∧
    bundle.rewards.cart_pos.weight = -5 ∧
    ∀ t ∈ bundle.rewards.terms, t.2.weight ≠ 0 := by
  norm_num [bundle, CartpoleDoubleEnvCfg.make, CartpoleDoubleEnvCfg.post_init,
    RewardsCfg.make, RewardsCfg.terms]

/-- Claim C2, counterexample: the reward configuration does not declare six
terms — `RewardsCfg` declares seven (`alive`, `terminating`, `pole_pos`,
`pole_pos_double`, `cart_vel`, `pole_vel`, `cart_pos`). -/
theorem C2_counterexample : ¬ bundle.rewards.terms.length = 6 := by
  decide

/-- Claim C2, amended: the reward specification consists of exactly seven
additive weighted terms, summed as `reward = Σ (weight × term value)` with
no coupling between terms beyond summation (the summation itself is modelled
from the spec, the reward manager being framework code absent from the
sources). -/
theorem C2_seven_weighted_terms :
    bundle.rewards.terms.length = 7 ∧
    ∀ value : String → ℚ,
      bundle.rewards.totalReward value =
        250 * value "alive" + -800 * value "terminating" + -30 * value "pole_pos" +
          -30 * value "pole_pos_double" + -10 * value "cart_vel" + -10 * value "pole_vel" +
          -5 * value "cart_pos" := by
  refine ⟨rfl, fun value => ?_⟩
  show (250.0 : ℚ) * value "alive" +
      ((-800.0 : ℚ) * value "terminating" +
        ((-30.0 : ℚ) * value "pole_pos" +
          ((-30.0 : ℚ) * value "pole_pos_double" +
            ((-10.0 : ℚ) * value "cart_vel" +
              ((-10.0 : ℚ) * value "pole_vel" + ((-5.0 : ℚ) * value "cart_pos" + 0)))))) = _
  norm_num
  ring

/-- Claim C3: the actions configuration exposes exactly one action term,
joint-effort control on entity "robot", joint "RailToCart", scale 10.0. -/
theorem C3_single_action_term :
    bundle.actions.terms.length = 1 ∧
    bundle.actions.joint_effort.asset_name = "robot" ∧
    bundle.actions.joint_effort.joint_names = ["RailToCart"] ∧
    bundle.actions.joint_effort.scale = 10 := by
  norm_num [bundle, CartpoleDoubleEnvCfg.make, CartpoleDoubleEnvCfg.post_init,
    ActionsCfg.make, ActionsCfg.terms]

/-- Claim C4: the terminations configuration declares exactly two terms: a
`time_out` term with the is-timeout flag true, and a `cart_out_of_bounds`
term targeting joint "RailToCart" with bounds (-1.24, 1.24); at least one
declared termination term is a non-timeout condition. -/
theorem C4_terminations :
    bundle.terminations.terms.length = 2 ∧
    bundle.terminations.time_out.func = "time_out" ∧
    bundle.terminations.time_out.time_out = true ∧
    bundle.terminations.cart_out_of_bounds.func = "joint_pos_out_of_manual_limit" ∧
    bundle.terminations.cart_out_of_bounds.params =
      [("asset_cfg", .entity { name := "robot", joint_names := some ["RailToCart"] }),
       ("bounds", .range (-1.24, 1.24))] ∧
    ("cart_out_of_bounds", bundle.terminations.cart_out_of_bounds) ∈
      bundle.terminations.terms ∧
    bundle.terminations.cart_out_of_bounds.time_out = false := by
  norm_num [bundle, CartpoleDoubleEnvCfg.make, CartpoleDoubleEnvCfg.post_init,
    TerminationsCfg.make, TerminationsCfg.terms]

/-- Claim C5: the event configuration declares exactly three reset-mode
terms in declared order — a full reset of all robot joints to default, then
a reset of joint "CartToPole" to the degenerate position range [π, π] with
velocity range (0, 0), then a reset of joint "PoleToDouble" with position
range (0, 0) and velocity range (0, 0) — and every range occurring in these
terms is degenerate (low = high exactly). -/
theorem C5_events :
    bundle.events.terms.length = 3 ∧
    bundle.events.terms.map Prod.fst =
      ["reset_to_default", "reset_pole_position", "reset_pole_double_position"] ∧
    (∀ t ∈ bundle.events.terms, t.2.mode = "reset") ∧
    bundle.events.reset_to_default.func = "reset_joints_to_default" ∧
    bundle.events.reset_to_default.params = [("asset_cfg", .entity { name := "robot" })] ∧
    bundle.events.reset_pole_position.params =
      [("asset_cfg", .entity { name := "robot", joint_names := some ["CartToPole"] }),
       ("position_range", .range (math_pi, math_pi)),
       ("velocity_range", .range (0, 0))] ∧
    bundle.events.reset_pole_double_position.params =
      [("asset_cfg", .entity { name := "robot", joint_names := some ["PoleToDouble"] }),
       ("position_range", .range (0, 0)),
       ("velocity_range", .range (0, 0))] ∧
    ∀ t ∈ bundle.events.terms, ∀ p ∈ t.2.params, p.2.isDegenerateRange = true := by
  norm_num [bundle, CartpoleDoubleEnvCfg.make, CartpoleDoubleEnvCfg.post_init,
    EventCfg.make, EventCfg.terms, PValue.isDegenerateRange]
  refine ⟨?_, ?_⟩ <;>
    rintro a b (⟨ha, hb⟩ | ⟨ha, hb⟩ | ⟨ha, hb⟩) <;> subst hb <;> simp

/-- Claim C6: for every value of the framework-installed base defaults and
every base robot template, the fully constructed bundle (defaults, then the
post-construction hook, last-write-wins) has decimation 1, episode length
10 s, timestep 1/120 s, gravity (0, 0, -9.8), render interval 2, use-fabric
true, viewer eye (1.4, 0, 2.8) and viewer lookat (-10, 0, 0). -/
theorem C6_post_init_overrides (base_robot : ArticulationCfg) (base : BaseEnvDefaults) :
    (CartpoleDoubleEnvCfg.make base_robot base).decimation = 1 ∧
    (CartpoleDoubleEnvCfg.make base_robot base).episode_length_s = 10 ∧
    (CartpoleDoubleEnvCfg.make base_robot base).sim.dt = 1 / 120 ∧
    (CartpoleDoubleEnvCfg.make base_robot base).sim.gravity = (0.0, 0.0, -9.8) ∧
    (CartpoleDoubleEnvCfg.make base_robot base).sim.render_interval = 2 ∧
    (CartpoleDoubleEnvCfg.make base_robot base).sim.use_fabric = true ∧
    (CartpoleDoubleEnvCfg.make base_robot base).viewer.eye = (1.4, 0.0, 2.8) ∧
    (CartpoleDoubleEnvCfg.make base_robot base).viewer.lookat = (-10.0, 0.0, 0.0) :=
  ⟨rfl, rfl, rfl, rfl, rfl, rfl, rfl, rfl⟩

/-- Claim C7: the observations configuration has exactly one group, named
"policy", with exactly the two terms `joint_pos_rel` then `joint_vel_rel`
in declared order; after the group's post-construction hook the
concatenate-terms flag is true and the corruption flag is false regardless
of the base-class flag values, and the declared order is identical across
every construction. -/
theorem C7_observations :
    bundle.observations.groups.length = 1 ∧
    bundle.observations.groups.map Prod.fst = ["policy"] ∧
    bundle.observations.policy.terms.map (fun t => t.2.func) =
      ["joint_pos_rel", "joint_vel_rel"] ∧
    (∀ g0 : Bool × Bool,
      (ObservationsCfg.make g0).policy.enable_corruption = false ∧
        (ObservationsCfg.make g0).policy.concatenate_terms = true) ∧
    ∀ g0 g1 : Bool × Bool,
      (ObservationsCfg.make g0).policy.terms = (ObservationsCfg.make g1).policy.terms :=
  ⟨rfl, rfl, rfl, fun _ => ⟨rfl, rfl⟩, fun _ _ => rfl⟩

/-- Claim C8: for every base robot template and base defaults, the scene of
the constructed bundle has num_envs = 4096 and env_spacing = 2.8, and its
robot entity is the base template with the attachment path overwritten by a
path containing the environment-index placeholder. -/
theorem C8_scene_replication (base_robot : ArticulationCfg) (base : BaseEnvDefaults) :
    (CartpoleDoubleEnvCfg.make base_robot base).scene.num_envs = 4096 ∧
    (CartpoleDoubleEnvCfg.make base_robot base).scene.env_spacing = 2.8 ∧
    (CartpoleDoubleEnvCfg.make base_robot base).scene.robot =
      base_robot.replace (envRegexNS ++ "/Robot") ∧
    ∃ pre post : String,
      (CartpoleDoubleEnvCfg.make base_robot base).scene.robot.prim_path =
        pre ++ envRegexNS ++ post := by
  refine ⟨rfl, rfl, rfl, "", "/Robot", ?_⟩
  show envRegexNS ++ "/Robot" = "" ++ envRegexNS ++ "/Robot"
  decide

/-- Claim C9: for every starting world hierarchy, `create_camera` creates
exactly the two placeholder Xform prims and returns a camera whose
configuration has width 640, height 480, update period 0, data types
exactly ["rgb"], and a pinhole lens with focal length 24.0, focus distance
400.0, horizontal aperture 20.955 and clipping range (0.1, 1.0e5). -/
theorem C9_create_camera (world : PrimStage) :
    (create_camera world).1 =
      world ++ [("/World/Origin_00", "Xform"), ("/World/Origin_01", "Xform")] ∧
    (create_camera world).2.cfg.width = 640 ∧
    (create_camera world).2.cfg.height = 480 ∧
    (create_camera world).2.cfg.update_period = 0 ∧
    (create_camera world).2.cfg.data_types = ["rgb"] ∧
    (create_camera world).2.cfg.spawn =
      { focal_length := 24.0, focus_distance := 400.0, horizontal_aperture := 20.955,
        clipping_range := (0.1, 1.0e5) } := by
  refine ⟨?_, rfl, rfl, rfl, rfl, rfl⟩
  simp [create_camera, create_prim]

/-- Claim C10: the scene configuration declares exactly the entities
"robot" (an articulation), "dome_light" (a dome-light asset) and
"distant_light" (a distant-light asset), in that order, and none of them is
a camera sensor — the default-constructed bundle contains no camera. -/
theorem C10_no_camera_in_scene :
    bundle.scene.entities.map Prod.fst = ["robot", "dome_light", "distant_light"] ∧
    (∀ e ∈ bundle.scene.entities, e.2.isCamera = false) ∧
    (∃ a, ("robot", SceneEntity.articulation a) ∈ bundle.scene.entities) ∧
    (∃ d, bundle.scene.dome_light.spawn = .dome d) ∧
    ∃ d, bundle.scene.distant_light.spawn = .distant d := by
  refine ⟨rfl, by decide, ⟨{ prim_path := envRegexNS ++ "/Robot" }, ?_⟩,
    ⟨{ color := (0.9, 0.9, 0.9), intensity := 500.0 }, rfl⟩,
    ⟨{ color := (0.9, 0.9, 0.9), intensity := 2500.0 }, rfl⟩⟩
  decide

end CartpoleDouble
